import Mathlib

/-!
Verification of the Sayonara chatbot repository.

The development shallowly embeds the JavaScript sources:

* part_000 (frontend `app.js` plus the full backend `server.js`):
  `demoStream`, `searchKnowledgeBase`, `getOrCreateSession`, the session
  sweep, `generateGeminiResponse`, and the `/api/chat` and
  `/api/chat/stream` handlers;
* `src/server.js` (the thin proxy backend): startup credential check and
  its `/api/chat` handler.

Strings are modelled as `List Char`; JavaScript dates as milliseconds
(`Int`); possibly-`undefined` values as `Option`; the remote Gemini call
(a black box) as an `Except` parameter supplied by the environment.
-/

namespace Sayonara

/-- JavaScript `String.prototype.toLowerCase` restricted to the ASCII
range actually used by the knowledge base (modelled by `Char.toLower`). -/
def lowerStr (s : List Char) : List Char := s.map Char.toLower

/-- Whether `pat` occurs at the head of `hay` (helper for `strIncludes`). -/
def headMatch : List Char → List Char → Bool
  | [], _ => true
  | _ :: _, [] => false
  | a :: as, b :: bs => a == b && headMatch as bs

/-- JavaScript `hay.includes(pat)`: `pat` occurs as a contiguous substring
of `hay` (the empty pattern always matches). -/
def strIncludes (hay pat : List Char) : Bool :=
  headMatch pat hay ||
    match hay with
    | [] => false
    | _ :: t => strIncludes t pat

-- ===========================================================================
-- RAG KNOWLEDGE BASE (part_000 lines 1182-1240)
-- ===========================================================================

structure KnowledgeEntry where
  topic : String
  content : String
  keywords : List String
deriving Repr, DecidableEq

/-- The static knowledge base of part_000 lines 1182-1218, in source
(insertion) order. -/
def knowledgeBase : List KnowledgeEntry :=
  [ { topic := "NIST 800-88"
    , content := "NIST 800-88 Rev.1 provides comprehensive guidelines for media sanitization. \n        It defines three types of sanitization: Clear (logical techniques), Purge (physical or logical \n        techniques that render data recovery infeasible), and Destroy (physical destruction of media).\n        The Sayonara platform implements these standards with military-grade security."
    , keywords := ["NIST", "standards", "sanitization", "security", "guidelines"] }
  , { topic := "Blockchain Verification"
    , content := "Our blockchain verification system uses Ethereum\x27s Sepolia testnet to create \n        tamper-proof certificates for each data wipe. Each certificate contains a cryptographic \n        hash of the wiping process, timestamp, device identifier, and verification status. \n        This provides immutable proof of compliance that can be audited by third parties."
    , keywords := ["blockchain", "verification", "certificate", "ethereum", "sepolia", "proof"] }
  , { topic := "Dual-Phase Sanitization"
    , content := "The dual-phase sanitization process first overwrites all sectors with random data \n        (Phase 1), then performs a cryptographic erasure using device-specific commands like \n        ATA Secure Erase or NVMe Sanitize (Phase 2). This ensures complete data destruction \n        even on modern SSDs with wear leveling and hidden areas."
    , keywords := ["dual-phase", "sanitization", "overwrite", "secure", "erase", "SSD", "NVMe"] }
  , { topic := "Data Wiping Process"
    , content := "The Sayonara data wiping process includes: 1) Device detection and identification, \n        2) Unlocking of hidden areas (HPA/DCO/OPAL), 3) Selection of appropriate wiping method, \n        4) Dual-phase sanitization execution, 5) Forensic recovery testing, 6) Re-wiping if needed, \n        7) Certificate generation and blockchain recording, 8) Resale value estimation."
    , keywords := ["wiping", "process", "steps", "forensic", "recovery", "certificate"] }
  , { topic := "Environmental Impact"
    , content := "Secure data wiping enables safe recycling and resale of IT assets, reducing e-waste \n        by up to 70%. Each properly wiped and recycled device saves approximately 24kg of CO₂ \n        emissions and prevents toxic materials from entering landfills. Our CSR dashboard tracks \n        and quantifies environmental impact metrics."
    , keywords := ["environmental", "impact", "recycling", "e-waste", "CO2", "sustainability"] }
  ]

structure RetrievalResult where
  topic : String
  content : String
  relevance : Nat
deriving Repr, DecidableEq

/-- The `reduce` of part_000 lines 1226-1228: the number of the entry's
keywords that occur (lower-cased) as substrings of the lower-cased query,
accumulated left to right from 0. -/
def keywordScore (queryLower : List Char) (keywords : List String) : Nat :=
  keywords.foldl
    (fun score keyword =>
      score + (if strIncludes queryLower (lowerStr keyword.toList) then 1 else 0))
    0

/-- The result list built by the `for` loop of part_000 lines 1225-1237, in
knowledge-base insertion order: an entry is kept when its keyword score is
positive or the lower-cased query contains its lower-cased topic, and its
relevance is the keyword score plus 5 for a topic match. -/
def scoredResults (query : List Char) : List RetrievalResult :=
  let queryLower := lowerStr query
  knowledgeBase.filterMap fun e =>
    let score := keywordScore queryLower e.keywords
    if score > 0 || strIncludes queryLower (lowerStr e.topic.toList) then
      some { topic := e.topic
           , content := e.content
           , relevance :=
               score + (if strIncludes queryLower (lowerStr e.topic.toList) then 5 else 0) }
    else
      none

/-- Insertion step of a stable descending sort: the new element is placed
before the first element whose relevance does not exceed it, so it precedes
every equally relevant element that came later in the input. -/
def sortInsert (x : RetrievalResult) : List RetrievalResult → List RetrievalResult
  | [] => [x]
  | y :: ys => if y.relevance > x.relevance then y :: sortInsert x ys else x :: y :: ys

/-- The JavaScript `results.sort((a, b) => b.relevance - a.relevance)` of
part_000 line 1239. `Array.prototype.sort` is stable (ECMA-262), and every
stable sort for the same preorder produces the same list, so the call is
modelled by a stable insertion sort, descending by relevance. -/
def stableSortDesc : List RetrievalResult → List RetrievalResult
  | [] => []
  | x :: xs => sortInsert x (stableSortDesc xs)

/-- The function `searchKnowledgeBase` of part_000 lines 1221-1240: score
and filter the entries, sort descending by relevance (stably), and
`slice(0, 3)`. -/
def searchKnowledgeBase (query : List Char) : List RetrievalResult :=
  (stableSortDesc (scoredResults query)).take 3

/-- Whether the entry matches the query at all: some keyword occurs in the
lower-cased query, or the lower-cased topic does (the inclusion test of
part_000 line 1230). -/
def entryMatches (queryLower : List Char) (e : KnowledgeEntry) : Bool :=
  e.keywords.any (fun k => strIncludes queryLower (lowerStr k.toList)) ||
    strIncludes queryLower (lowerStr e.topic.toList)

/-- The number of the entry's keywords that match the query, stated as a
count (related to the source's fold by `keywordScore_eq_countP`). -/
def keywordMatchCount (query : List Char) (e : KnowledgeEntry) : Nat :=
  e.keywords.countP (fun k => strIncludes (lowerStr query) (lowerStr k.toList))

theorem mem_sortInsert (z x : RetrievalResult) (s : List RetrievalResult) :
    z ∈ sortInsert x s ↔ z = x ∨ z ∈ s := by
  induction s with
  | nil => simp [sortInsert]
  | cons y ys ih =>
    by_cases h : y.relevance > x.relevance
    · simp only [sortInsert, if_pos h, List.mem_cons, ih]
      tauto
    · simp only [sortInsert, if_neg h, List.mem_cons]

theorem pairwise_sortInsert (x : RetrievalResult) (s : List RetrievalResult)
    (hs : s.Pairwise (fun a b => b.relevance ≤ a.relevance)) :
    (sortInsert x s).Pairwise (fun a b => b.relevance ≤ a.relevance) := by
  induction s with
  | nil => simp [sortInsert]
  | cons y ys ih =>
    rw [List.pairwise_cons] at hs
    by_cases h : y.relevance > x.relevance
    · rw [sortInsert, if_pos h, List.pairwise_cons]
      refine ⟨fun z hz => ?_, ih hs.2⟩
      rcases (mem_sortInsert z x ys).mp hz with rfl | hz'
      · omega
      · exact hs.1 z hz'
    · rw [sortInsert, if_neg h, List.pairwise_cons]
      refine ⟨fun z hz => ?_, List.pairwise_cons.mpr hs⟩
      rcases List.mem_cons.mp hz with rfl | hz'
      · omega
      · have := hs.1 z hz'
        omega

theorem pairwise_stableSortDesc (s : List RetrievalResult) :
    (stableSortDesc s).Pairwise (fun a b => b.relevance ≤ a.relevance) := by
  induction s with
  | nil => simp [stableSortDesc]
  | cons x xs ih => exact pairwise_sortInsert x _ ih

theorem mem_stableSortDesc (z : RetrievalResult) (s : List RetrievalResult) :
    z ∈ stableSortDesc s ↔ z ∈ s := by
  induction s with
  | nil => simp [stableSortDesc]
  | cons x xs ih =>
    rw [stableSortDesc, mem_sortInsert, ih, List.mem_cons]

theorem filter_sortInsert (x : RetrievalResult) (r : Nat) (s : List RetrievalResult) :
    (sortInsert x s).filter (fun a => a.relevance == r) =
      (if x.relevance == r then [x] else []) ++
        s.filter (fun a => a.relevance == r) := by
  induction s with
  | nil => by_cases hx : x.relevance == r <;> simp [sortInsert, hx]
  | cons y ys ih =>
    by_cases h : y.relevance > x.relevance
    · rw [sortInsert, if_pos h, List.filter_cons, ih]
      by_cases hx : x.relevance = r
      · have hy : (y.relevance == r) = false := by
          simp only [beq_eq_false_iff_ne]
          omega
        simp [hx, hy]
      · have hx' : (x.relevance == r) = false := by
          simp only [beq_eq_false_iff_ne]
          exact hx
        simp [hx', List.filter_cons]
    · rw [sortInsert, if_neg h]
      by_cases hx : x.relevance == r <;>
        simp [List.filter_cons, hx]

theorem filter_stableSortDesc (r : Nat) (s : List RetrievalResult) :
    (stableSortDesc s).filter (fun a => a.relevance == r) =
      s.filter (fun a => a.relevance == r) := by
  induction s with
  | nil => rfl
  | cons x xs ih =>
    rw [stableSortDesc, filter_sortInsert, ih, List.filter_cons]
    by_cases hx : x.relevance == r <;> simp [hx]

theorem foldl_add_ite (p : String → Bool) (ks : List String) (n : Nat) :
    ks.foldl (fun score k => score + (if p k then 1 else 0)) n = n + ks.countP p := by
  induction ks generalizing n with
  | nil => simp
  | cons k ks ih =>
    rw [List.foldl_cons, ih, List.countP_cons]
    by_cases h : p k
    · simp [h]
      omega
    · simp [h]

theorem keywordScore_eq_countP (queryLower : List Char) (ks : List String) :
    keywordScore queryLower ks =
      ks.countP (fun k => strIncludes queryLower (lowerStr k.toList)) := by
  rw [keywordScore, foldl_add_ite, Nat.zero_add]

theorem scoredResults_eq_nil (q : List Char)
    (h : ∀ e ∈ knowledgeBase, entryMatches (lowerStr q) e = false) :
    scoredResults q = [] := by
  rw [scoredResults, List.filterMap_eq_nil_iff]
  intro e he
  have hm := h e he
  rw [entryMatches, Bool.or_eq_false_iff] at hm
  rw [List.any_eq_false] at hm
  have hk : keywordScore (lowerStr q) e.keywords = 0 := by
    rw [keywordScore_eq_countP, List.countP_eq_zero]
    intro k hk
    simpa using hm.1 k hk
  have hm2 : strIncludes (lowerStr q) (lowerStr e.topic.data) = false := hm.2
  simp [hk, hm2]

/-- C3: for every query, `searchKnowledgeBase` returns at most 3 results,
sorted descending by relevance; it is the 3-element truncation of a sort
that keeps equally scored entries in knowledge-base insertion order (the
per-score slices of the sorted list coincide with those of the unsorted
scored list); and a query matching no keyword and no topic name of any
entry yields the empty sequence. -/
theorem c3_search_spec (q : List Char) :
    (searchKnowledgeBase q).length ≤ 3 ∧
    (searchKnowledgeBase q).Pairwise (fun a b => b.relevance ≤ a.relevance) ∧
    searchKnowledgeBase q = (stableSortDesc (scoredResults q)).take 3 ∧
    (∀ r, (stableSortDesc (scoredResults q)).filter (fun a => a.relevance == r) =
      (scoredResults q).filter (fun a => a.relevance == r)) ∧
    ((∀ e ∈ knowledgeBase, entryMatches (lowerStr q) e = false) →
      searchKnowledgeBase q = []) := by
  refine ⟨?_, ?_, rfl, fun r => filter_stableSortDesc r _, fun h => ?_⟩
  · exact List.length_take_le 3 _
  · exact (pairwise_stableSortDesc (scoredResults q)).sublist (List.take_sublist 3 _)
  · rw [searchKnowledgeBase, scoredResults_eq_nil q h]
    rfl

/-- Witness for C3 at the query "xyzzy", which matches no keyword and no
topic: the search returns the empty sequence. -/
theorem c3_search_spec_witness : searchKnowledgeBase ("xyzzy".toList) = [] :=
  (c3_search_spec ("xyzzy".toList)).2.2.2.2 (by decide)

/-- C9: every result returned by `searchKnowledgeBase` comes from a
knowledge-base entry and its relevance is exactly the number of matched
keywords plus 5 when the lower-cased query contains the lower-cased topic
name (and plus nothing otherwise): the topic bonus is exactly +5,
independent of the keyword count. -/
theorem c9_topic_bonus (q : List Char) (res : RetrievalResult)
    (hres : res ∈ searchKnowledgeBase q) :
    ∃ e ∈ knowledgeBase, res.topic = e.topic ∧ res.content = e.content ∧
      res.relevance = keywordMatchCount q e +
        (if strIncludes (lowerStr q) (lowerStr e.topic.toList) then 5 else 0) := by
  have h1 : res ∈ stableSortDesc (scoredResults q) :=
    List.mem_of_mem_take hres
  have h2 : res ∈ scoredResults q := (mem_stableSortDesc res _).mp h1
  rw [scoredResults, List.mem_filterMap] at h2
  obtain ⟨e, he, hfe⟩ := h2
  refine ⟨e, he, ?_⟩
  by_cases hc : keywordScore (lowerStr q) e.keywords > 0 ||
      strIncludes (lowerStr q) (lowerStr e.topic.toList)
  · rw [if_pos hc, Option.some_inj] at hfe
    subst hfe
    refine ⟨rfl, rfl, ?_⟩
    rw [keywordMatchCount, ← keywordScore_eq_countP]
  · rw [if_neg hc] at hfe
    exact absurd hfe (by simp)

set_option maxRecDepth 100000 in
/-- Witness for C9 at the query "blockchain": the single returned result is
the "Blockchain Verification" entry with relevance 1 (one keyword match, no
topic-name match, hence no +5 bonus). -/
theorem c9_topic_bonus_witness :
    ∃ e ∈ knowledgeBase,
      (⟨"Blockchain Verification",
        (knowledgeBase.getD 1 ⟨"", "", []⟩).content, 1⟩ : RetrievalResult).topic = e.topic ∧
      (⟨"Blockchain Verification",
        (knowledgeBase.getD 1 ⟨"", "", []⟩).content, 1⟩ : RetrievalResult).content = e.content ∧
      (⟨"Blockchain Verification",
        (knowledgeBase.getD 1 ⟨"", "", []⟩).content, 1⟩ : RetrievalResult).relevance =
        keywordMatchCount ("blockchain".toList) e +
          (if strIncludes (lowerStr ("blockchain".toList)) (lowerStr e.topic.toList)
            then 5 else 0) :=
  c9_topic_bonus ("blockchain".toList) _ (by decide)

-- ===========================================================================
-- STREAMING (part_000 lines 112-140 and 1404-1445)
-- ===========================================================================

/-- A stream event as in the spec: the partial content carried by a frame
and the final/done flag (`isFinal = false` frames are partial, one
`isFinal = true` frame terminates the stream). -/
structure StreamEvent where
  content : List Char
  isFinal : Bool
deriving Repr, DecidableEq

/-- JavaScript `text.split(' ')`: split on every single space character;
the result is never empty and the empty string splits to one empty word. -/
def splitOnSpace (l : List Char) : List (List Char) :=
  match l with
  | [] => [[]]
  | c :: rest =>
    match splitOnSpace rest with
    | [] => [[]]
    | w :: ws => if c = ' ' then [] :: w :: ws else (c :: w) :: ws

/-- JavaScript `words.join(' ')`: concatenate with single space
separators. -/
def joinSpace : List (List Char) → List Char
  | [] => []
  | [w] => w
  | w :: ws => w ++ ' ' :: joinSpace ws

/-- Canned demoStream response text, part_000 line 114. -/
def demoResponseWiping : List Char :=
  "The Sayonara platform uses military-grade NIST 800-88 compliant data sanitization. Our dual-phase process ensures complete erasure with blockchain verification.".toList

/-- Canned demoStream response text, part_000 line 115. -/
def demoResponseBlockchain : List Char :=
  "Each data wipe generates a tamper-proof certificate stored on the Ethereum Sepolia testnet. This provides immutable proof of compliance.".toList

/-- Canned demoStream response text, part_000 line 116. -/
def demoResponseRag : List Char :=
  "Our RAG (Retrieval Augmented Generation) system enhances responses with real-time data from our knowledge base about secure data wiping procedures.".toList

/-- Canned demoStream response text, part_000 line 117. -/
def demoResponseDefault : List Char :=
  "I understand your query about the Sayonara data wiping solution. Our platform offers comprehensive secure erasure with AI guidance and blockchain verification.".toList

/-- Response selection of `demoStream`, part_000 lines 120-124. -/
def demoSelectResponse (message : List Char) : List Char :=
  let lower := lowerStr message
  if strIncludes lower ("wip".toList) then demoResponseWiping
  else if strIncludes lower ("blockchain".toList) then demoResponseBlockchain
  else if strIncludes lower ("rag".toList) then demoResponseRag
  else demoResponseDefault

/-- The complete run of the `setInterval` callback of `demoStream`
(part_000 lines 129-137) starting from a word index: while
`index < words.length` each firing emits the cumulative
`words.slice(0, index + 1).join(' ')` with `isFinal = false`; once the
index reaches the word count, the interval is cleared and one event with
the complete response and `isFinal = true` is emitted. -/
def demoRun (response : List Char) (words : List (List Char)) (index : Nat) :
    List StreamEvent :=
  if index < words.length then
    ⟨joinSpace (words.take (index + 1)), false⟩ :: demoRun response words (index + 1)
  else
    [⟨response, true⟩]
termination_by words.length - index

/-- The event sequence the interval machinery of `demoStream` emits for a
given response text (part_000 lines 126-139, independent of which canned
response was selected). -/
def demoEmit (response : List Char) : List StreamEvent :=
  demoRun response (splitOnSpace response) 0

/-- The full event sequence of `demoStream` (part_000 lines 112-140) for a
user message: select the canned response and run the interval. -/
def demoStreamEvents (message : List Char) : List StreamEvent :=
  demoEmit (demoSelectResponse message)

/-- The `for` loop of the GET /api/chat/stream handler (part_000 lines
1424-1434): at index `i < words.length` it appends the next word to
`currentText` (with a separating space when `i > 0`) and writes one frame
whose done flag is `i === words.length - 1`. -/
def sseRun (words : List (List Char)) (currentText : List Char) (i : Nat) :
    List StreamEvent :=
  if i < words.length then
    let t := currentText ++ (if 0 < i then [' '] else []) ++ words.getD i []
    ⟨t, i == words.length - 1⟩ :: sseRun words t (i + 1)
  else []
termination_by words.length - i

/-- The frames the GET /api/chat/stream handler writes for a response text
(part_000 lines 1420-1434). -/
def sseStreamEvents (responseText : List Char) : List StreamEvent :=
  sseRun (splitOnSpace responseText) [] 0

/-- The frames the /api/chat/stream loop still writes after the client has
closed the connection with `k` frames delivered: the handler registers no
close listener and the loop consults no cancellation flag (part_000 lines
1404-1445 contain no `req.on('close')` and no interruption of the loop or
of its pending `setTimeout`), so production is unaffected by the closure
and the post-closure frames are exactly the remaining suffix. -/
def sseFramesAfterClose (responseText : List Char) (k : Nat) : List StreamEvent :=
  (sseStreamEvents responseText).drop k

theorem splitOnSpace_ne_nil (l : List Char) : splitOnSpace l ≠ [] := by
  cases l with
  | nil => simp [splitOnSpace]
  | cons c rest =>
    rw [splitOnSpace]
    cases splitOnSpace rest with
    | nil => simp
    | cons w ws => by_cases h : c = ' ' <;> simp [h]

theorem splitOnSpace_of_no_space (w : List Char) (hw : ' ' ∉ w) :
    splitOnSpace w = [w] := by
  induction w with
  | nil => rfl
  | cons c cs ih =>
    have hc : c ≠ ' ' := fun h => hw (h ▸ List.mem_cons_self c cs)
    have hcs : ' ' ∉ cs := fun h => hw (List.mem_cons_of_mem c h)
    rw [splitOnSpace, ih hcs]
    simp [hc]

theorem splitOnSpace_cons_space (l : List Char) :
    splitOnSpace (' ' :: l) = [] :: splitOnSpace l := by
  rw [splitOnSpace]
  cases h : splitOnSpace l with
  | nil => exact absurd h (splitOnSpace_ne_nil l)
  | cons w ws => simp

theorem splitOnSpace_append_space (w rest : List Char) (hw : ' ' ∉ w) :
    splitOnSpace (w ++ ' ' :: rest) = w :: splitOnSpace rest := by
  induction w with
  | nil => simpa using splitOnSpace_cons_space rest
  | cons c cs ih =>
    have hc : c ≠ ' ' := fun h => hw (h ▸ List.mem_cons_self c cs)
    have hcs : ' ' ∉ cs := fun h => hw (List.mem_cons_of_mem c h)
    rw [List.cons_append, splitOnSpace, ih hcs]
    simp [hc, splitOnSpace_ne_nil]

theorem joinSpace_cons_of_ne_nil (w : List Char) (ws : List (List Char))
    (h : ws ≠ []) : joinSpace (w :: ws) = w ++ ' ' :: joinSpace ws := by
  cases ws with
  | nil => exact absurd rfl h
  | cons x xs => rfl

theorem splitOnSpace_joinSpace (W : List (List Char)) (hne : W ≠ [])
    (hw : ∀ w ∈ W, ' ' ∉ w) : splitOnSpace (joinSpace W) = W := by
  induction W with
  | nil => exact absurd rfl hne
  | cons x xs ih =>
    cases xs with
    | nil => exact splitOnSpace_of_no_space x (hw x (List.mem_cons_self x []))
    | cons y ys =>
      rw [joinSpace_cons_of_ne_nil x (y :: ys) (by simp),
        splitOnSpace_append_space x _ (hw x (List.mem_cons_self x _)),
        ih (by simp) (fun w hwm => hw w (List.mem_cons_of_mem x hwm))]

theorem joinSpace_concat (ws : List (List Char)) (y : List Char) (h : ws ≠ []) :
    joinSpace (ws ++ [y]) = joinSpace ws ++ ' ' :: y := by
  induction ws with
  | nil => exact absurd rfl h
  | cons x xs ih =>
    cases xs with
    | nil => rfl
    | cons z zs =>
      rw [List.cons_append,
        joinSpace_cons_of_ne_nil x ((z :: zs) ++ [y]) (by simp),
        joinSpace_cons_of_ne_nil x (z :: zs) (by simp),
        ih (by simp)]
      simp

theorem joinSpace_take_succ (W : List (List Char)) (i : Nat) (h : i < W.length) :
    joinSpace (W.take (i + 1)) =
      joinSpace (W.take i) ++ (if 0 < i then [' '] else []) ++ W.getD i [] := by
  have hget : W[i]? = some W[i] := List.getElem?_eq_getElem h
  have htake : W.take (i + 1) = W.take i ++ [W[i]] := by
    rw [List.take_succ, hget]
    rfl
  have hgetD : W.getD i [] = W[i] := by
    rw [List.getD_eq_getElem?_getD, hget]
    rfl
  rw [htake, hgetD]
  cases i with
  | zero => simp [joinSpace]
  | succ n =>
    have hne : W.take (n + 1) ≠ [] := by
      have : (W.take (n + 1)).length = n + 1 := by
        rw [List.length_take]
        omega
      intro hnil
      rw [hnil] at this
      simp at this
    rw [joinSpace_concat _ _ hne]
    simp

theorem demoRun_eq (response : List Char) (words : List (List Char)) :
    ∀ (k i : Nat), words.length = i + k →
      demoRun response words i =
        ((List.range' i k).map fun j => ⟨joinSpace (words.take (j + 1)), false⟩) ++
          [⟨response, true⟩] := by
  intro k
  induction k with
  | zero =>
    intro i hi
    rw [demoRun, if_neg (by omega)]
    simp
  | succ n ih =>
    intro i hi
    rw [demoRun, if_pos (by omega), ih (i + 1) (by omega), List.range'_succ]
    simp

theorem sseRun_eq (words : List (List Char)) :
    ∀ (k i : Nat), words.length = i + k →
      sseRun words (joinSpace (words.take i)) i =
        (List.range' i k).map fun j =>
          ⟨joinSpace (words.take (j + 1)), j == words.length - 1⟩ := by
  intro k
  induction k with
  | zero =>
    intro i hi
    rw [sseRun, if_neg (by omega)]
    simp
  | succ n ih =>
    intro i hi
    rw [sseRun, if_pos (by omega)]
    simp only
    rw [← joinSpace_take_succ words i (by omega), ih (i + 1) (by omega),
      List.range'_succ, List.map_cons]

theorem demoEmit_eq (W : List (List Char)) (hne : W ≠ [])
    (hw : ∀ w ∈ W, ' ' ∉ w) :
    demoEmit (joinSpace W) =
      ((List.range W.length).map fun j => ⟨joinSpace (W.take (j + 1)), false⟩) ++
        [⟨joinSpace W, true⟩] := by
  rw [demoEmit, splitOnSpace_joinSpace W hne hw,
    demoRun_eq (joinSpace W) W W.length 0 (by omega), List.range_eq_range']

theorem sseStreamEvents_eq (W : List (List Char)) (hne : W ≠ [])
    (hw : ∀ w ∈ W, ' ' ∉ w) :
    sseStreamEvents (joinSpace W) =
      (List.range W.length).map fun j =>
        ⟨joinSpace (W.take (j + 1)), j == W.length - 1⟩ := by
  rw [sseStreamEvents, splitOnSpace_joinSpace W hne hw]
  have h0 : ([] : List Char) = joinSpace (W.take 0) := rfl
  rw [h0, sseRun_eq W W.length 0 (by omega), List.range_eq_range']

/-- Concrete evaluation of the /api/chat/stream frames on the two-word
response "a b". -/
theorem sseStreamEvents_ab :
    sseStreamEvents ('a' :: ' ' :: 'b' :: []) =
      [⟨['a'], false⟩, ⟨['a', ' ', 'b'], true⟩] := by
  have h2 := sseStreamEvents_eq [['a'], ['b']] (by decide) (by decide)
  rw [show (joinSpace [['a'], ['b']]) = ('a' :: ' ' :: 'b' :: []) from rfl] at h2
  rw [h2]
  decide

/-- C1 (amended): for a response text made of `n` nonempty space-free words
joined by single spaces, the `demoStream` emitter produces exactly `n`
non-final events carrying the cumulative prefixes of 1..n words followed by
exactly one final event carrying the complete text; the server's
/api/chat/stream loop instead produces exactly `n` frames whose first
`n - 1` are the non-final cumulative prefixes and whose `n`-th frame is the
final one, carrying the complete text. -/
theorem c1_amended (W : List (List Char)) (hne : W ≠ [])
    (hw : ∀ w ∈ W, ' ' ∉ w) :
    demoEmit (joinSpace W) =
      ((List.range W.length).map fun j => ⟨joinSpace (W.take (j + 1)), false⟩) ++
        [⟨joinSpace W, true⟩] ∧
    sseStreamEvents (joinSpace W) =
      (List.range W.length).map fun j =>
        ⟨joinSpace (W.take (j + 1)), j == W.length - 1⟩ :=
  ⟨demoEmit_eq W hne hw, sseStreamEvents_eq W hne hw⟩

/-- Witness for C1 (amended) at the two-word text "a b": demoStream emits
["a" (partial), "a b" (partial), "a b" (final)]; the SSE endpoint emits
["a" (partial), "a b" (final)]. -/
theorem c1_amended_witness :
    demoEmit (joinSpace [['a'], ['b']]) =
      ((List.range ([['a'], ['b']] : List (List Char)).length).map
        fun j => ⟨joinSpace (([['a'], ['b']] : List (List Char)).take (j + 1)), false⟩) ++
        [⟨joinSpace [['a'], ['b']], true⟩] ∧
    sseStreamEvents (joinSpace [['a'], ['b']]) =
      (List.range ([['a'], ['b']] : List (List Char)).length).map
        fun j => ⟨joinSpace (([['a'], ['b']] : List (List Char)).take (j + 1)),
          j == ([['a'], ['b']] : List (List Char)).length - 1⟩ :=
  c1_amended [['a'], ['b']] (by decide) (by decide)

/-- C1 counterexample: the /api/chat/stream endpoint (one of the claim's
two cited emitters) run on the two-word response "a b" produces only one
non-final event, not two followed by a final one: its second (last) frame
already carries the done flag. -/
theorem c1_counterexample :
    sseStreamEvents ('a' :: ' ' :: 'b' :: []) =
      [⟨['a'], false⟩, ⟨['a', ' ', 'b'], true⟩] ∧
    ((sseStreamEvents ('a' :: ' ' :: 'b' :: [])).filter fun e => !e.isFinal).length = 1 ∧
    (splitOnSpace ('a' :: ' ' :: 'b' :: [])).length = 2 ∧
    (1 : Nat) ≠ 2 := by
  refine ⟨sseStreamEvents_ab, ?_, by decide, by decide⟩
  rw [sseStreamEvents_ab]
  decide

/-- C2: the claim is right and the code is wrong at the /api/chat/stream
handler: the handler installs no close listener and never cancels the
pending timer, so after the client closes the connection having received
frame 1 of the two-word stream "a b", the loop still produces frame 2 (the
final frame) — the pending timer is not torn down on that exit path. -/
theorem c2_bug :
    sseFramesAfterClose ('a' :: ' ' :: 'b' :: []) 1 = [⟨['a', ' ', 'b'], true⟩] ∧
    sseFramesAfterClose ('a' :: ' ' :: 'b' :: []) 1 ≠ [] := by
  have h : sseFramesAfterClose ('a' :: ' ' :: 'b' :: []) 1 =
      [⟨['a', ' ', 'b'], true⟩] := by
    rw [sseFramesAfterClose, sseStreamEvents_ab]
    decide
  refine ⟨h, ?_⟩
  rw [h]
  decide

-- ===========================================================================
-- SESSION MANAGEMENT (part_000 lines 1246-1273)
-- ===========================================================================

/-- One element of a history message's `parts` array: `{ text: ... }`. -/
structure HistPart where
  text : List Char
deriving Repr, DecidableEq

/-- A history entry as pushed by the /api/chat handler:
`{ role, parts: [{ text }] }`. -/
structure HistMessage where
  role : String
  parts : List HistPart
deriving Repr, DecidableEq

/-- A session record as created by `getOrCreateSession` (part_000 lines
1250-1255); dates are milliseconds since the epoch. -/
structure Session where
  id : String
  chatHistory : List HistMessage
  createdAt : Int
  lastActivity : Int
deriving Repr, DecidableEq

/-- JavaScript `Map.get` on the session store: the value at the first (and
only, since `Map` keys are unique) binding of the key. -/
def mapGet : List (String × Session) → String → Option Session
  | [], _ => none
  | (k0, v0) :: rest, k => if k0 = k then some v0 else mapGet rest k

/-- JavaScript `Map.set`: replace the value at an existing key in place
(keeping its position), or append a new binding at the end (preserving
insertion order). -/
def mapSet : List (String × Session) → String → Session → List (String × Session)
  | [], k, v => [(k, v)]
  | (k0, v0) :: rest, k, v =>
    if k0 = k then (k, v) :: rest else (k0, v0) :: mapSet rest k v

/-- The function `getOrCreateSession` of part_000 lines 1248-1260: create a
fresh session when the id is unseen, then refresh `lastActivity` on the now
surely present session (an in-place mutation of the stored object, modelled
as a `mapSet`) and return it. Both `new Date()` calls are modelled by the
single `now` parameter. -/
def getOrCreateSession (store : List (String × Session)) (sessionId : String)
    (now : Int) : List (String × Session) × Session :=
  let store1 :=
    if (mapGet store sessionId).isSome then store
    else mapSet store sessionId
      { id := sessionId, chatHistory := [], createdAt := now, lastActivity := now }
  let session := (mapGet store1 sessionId).getD
    { id := sessionId, chatHistory := [], createdAt := now, lastActivity := now }
  let refreshed := { session with lastActivity := now }
  (mapSet store1 sessionId refreshed, refreshed)

/-- The idle timeout of the sweep, part_000 line 1265: 30 minutes in
milliseconds. -/
def SESSION_TIMEOUT_MS : Int := 30 * 60 * 1000

/-- One run of the periodic cleanup of part_000 lines 1263-1273: delete
every session whose idle time strictly exceeds the timeout (deleting while
iterating a JavaScript `Map` visits every entry, so the sweep is a filter). -/
def sweepSessions (now : Int) (store : List (String × Session)) :
    List (String × Session) :=
  store.filter fun p => !decide (now - p.2.lastActivity > SESSION_TIMEOUT_MS)

/-- C8: after a sweep at time `now`, a session that was in the store is
absent exactly when its idle time (now minus lastActivity) exceeds the
30-minute timeout, and still present when it was touched within the
timeout. -/
theorem c8_sweep (now : Int) (store : List (String × Session)) (id : String)
    (s : Session) (hmem : (id, s) ∈ store) :
    (now - s.lastActivity > SESSION_TIMEOUT_MS →
      (id, s) ∉ sweepSessions now store) ∧
    (now - s.lastActivity ≤ SESSION_TIMEOUT_MS →
      (id, s) ∈ sweepSessions now store) := by
  constructor
  · intro hidle hin
    rw [sweepSessions, List.mem_filter] at hin
    have := hin.2
    simp only [Bool.not_eq_true', decide_eq_false_iff_not] at this
    omega
  · intro hidle
    rw [sweepSessions, List.mem_filter]
    refine ⟨hmem, ?_⟩
    simp only [Bool.not_eq_true', decide_eq_false_iff_not]
    omega

/-- Witness for C8: a session idle for 2000000 ms (more than 30 minutes) is
absent after the sweep. -/
theorem c8_sweep_witness :
    ("a", ({ id := "a", chatHistory := [], createdAt := 0, lastActivity := 0 } :
      Session)) ∉
      sweepSessions 2000000
        [("a", { id := "a", chatHistory := [], createdAt := 0, lastActivity := 0 })] :=
  (c8_sweep 2000000 _ "a" _ (by decide)).1 (by decide)

theorem mapGet_mapSet_self (l : List (String × Session)) (k : String)
    (v : Session) : mapGet (mapSet l k v) k = some v := by
  induction l with
  | nil => simp [mapSet, mapGet]
  | cons p rest ih =>
    obtain ⟨k0, v0⟩ := p
    by_cases h : k0 = k
    · simp [mapSet, mapGet, h]
    · simp [mapSet, mapGet, h, ih]

theorem mapGet_mapSet_ne (l : List (String × Session)) (k k' : String)
    (v : Session) (h : k' ≠ k) : mapGet (mapSet l k v) k' = mapGet l k' := by
  induction l with
  | nil =>
    simp only [mapSet, mapGet]
    rw [if_neg (fun he => h he.symm)]
  | cons p rest ih =>
    obtain ⟨k0, v0⟩ := p
    by_cases h0 : k0 = k
    · subst h0
      simp only [mapSet, if_pos rfl, mapGet]
      rw [if_neg (fun he => h he.symm), if_neg (fun he => h he.symm)]
    · simp only [mapSet, if_neg h0, mapGet]
      by_cases h1 : k0 = k'
      · rw [if_pos h1, if_pos h1]
      · rw [if_neg h1, if_neg h1, ih]

/-- C10: calling `getOrCreateSession` with an id already present in the
store only refreshes that session's `lastActivity`: the returned session
keeps the stored id, chatHistory and createdAt; the store afterwards maps
the id to exactly that refreshed session; and every other id maps to
exactly what it mapped to before. -/
theorem c10_frame (store : List (String × Session)) (sessionId : String)
    (now : Int) (s : Session) (h : mapGet store sessionId = some s) :
    (getOrCreateSession store sessionId now).2 = { s with lastActivity := now } ∧
    mapGet (getOrCreateSession store sessionId now).1 sessionId =
      some { s with lastActivity := now } ∧
    (∀ k, k ≠ sessionId →
      mapGet (getOrCreateSession store sessionId now).1 k = mapGet store k) := by
  have hstore1 : (if (mapGet store sessionId).isSome then store
      else mapSet store sessionId
        { id := sessionId, chatHistory := [], createdAt := now,
          lastActivity := now }) = store := by
    rw [h]
    rfl
  rw [getOrCreateSession, hstore1, h, Option.getD_some]
  exact ⟨rfl, mapGet_mapSet_self store sessionId _,
    fun k hk => mapGet_mapSet_ne store sessionId k _ hk⟩

/-- Witness for C10: refreshing the existing session "a" at time 9 keeps
its history and creation time, only bumps lastActivity, and leaves the
lookup of another id unchanged. -/
theorem c10_frame_witness :
    (getOrCreateSession [("a", (⟨"a", [], 5, 5⟩ : Session))] "a" 9).2 =
      (⟨"a", [], 5, 9⟩ : Session) ∧
    mapGet (getOrCreateSession [("a", (⟨"a", [], 5, 5⟩ : Session))] "a" 9).1 "a" =
      some (⟨"a", [], 5, 9⟩ : Session) ∧
    mapGet (getOrCreateSession [("a", (⟨"a", [], 5, 5⟩ : Session))] "a" 9).1 "b" =
      mapGet [("a", (⟨"a", [], 5, 5⟩ : Session))] "b" := by
  have h := c10_frame [("a", (⟨"a", [], 5, 5⟩ : Session))] "a" 9
    (⟨"a", [], 5, 5⟩ : Session) (by decide)
  exact ⟨h.1, h.2.1, h.2.2 "b" (by decide)⟩

-- ===========================================================================
-- STARTUP POLICY AND GEMINI GATEWAY (src/server.js; part_000 lines 1137-1335)
-- ===========================================================================

/-- A JavaScript string environment variable that is falsy: unset
(`undefined`) or the empty string. -/
def jsFalsyStr : Option String → Bool
  | none => true
  | some s => s == ""

/-- Startup behavior of a backend regarding the model credential. -/
inductive StartupBehavior where
  | exitBeforeServing
  | servesTraffic (demoWarning : Bool)
deriving Repr, DecidableEq

/-- Startup credential policy of src/server.js lines 10-16: call
`process.exit(1)` before listening when GEMINI_API_KEY is falsy or equals
the placeholder value; otherwise serve. -/
def serverJsStartup (key : Option String) : StartupBehavior :=
  if jsFalsyStr key || (key == some "YOUR_GEMINI_API_KEY_HERE") then
    .exitBeforeServing
  else
    .servesTraffic false

/-- Startup behavior of the part_000 backend (lines 1139-1145 and
1627-1640): a missing key only prints warnings ("The server will run in
demo mode until configured"); the server always listens. -/
def part000Startup (key : Option String) : StartupBehavior :=
  .servesTraffic (jsFalsyStr key)

/-- The credential the part_000 backend hands to the GoogleGenerativeAI
client, line 1145: `GEMINI_API_KEY || 'demo-key'`. -/
def part000GenAiKey (key : Option String) : String :=
  if jsFalsyStr key then "demo-key" else key.getD "demo-key"

/-- Outcome of one call to `generateGeminiResponse`: whether the remote
exchange was attempted, and the returned text or re-thrown error message. -/
structure GenOutcome where
  remoteCalled : Bool
  result : Except (List Char) (List Char)
deriving Repr

/-- The canned fallback text of part_000 lines 1328-1330, returned when the
thrown error message mentions the API key. -/
def apiKeyFallbackMessage : List Char :=
  "I\x27m currently unable to connect to the Gemini AI service. Please ensure your API key is configured correctly in the .env file. \n\nFor now, I can tell you about the Sayonara platform: We provide military-grade data wiping with blockchain verification, ensuring your data is completely and verifiably erased before device recycling or resale.".toList

/-- The function `generateGeminiResponse` of part_000 lines 1279-1335. The
remote Gemini exchange (`model.startChat` followed by `chat.sendMessage`)
is a black box supplied as `remote`: `.ok text` models a successful
generation, `.error msg` a thrown error carrying that message. The body
always attempts the remote call (there is no demo-mode short circuit); the
catch converts an error whose message contains "API key" into the canned
fallback text and re-throws every other error. -/
def generateGeminiResponse (remote : Except (List Char) (List Char)) : GenOutcome :=
  { remoteCalled := true
  , result :=
      match remote with
      | .ok text => .ok text
      | .error e =>
        if strIncludes e ("API key".toList) then .ok apiKeyFallbackMessage
        else .error e }

-- ===========================================================================
-- GENERATION CONFIG (part_000 lines 1308-1316)
-- ===========================================================================

/-- The config fields of a chat request that reach `startChat`; a missing
field is `none`. JavaScript numbers are modelled as `Int` for maxTokens and
`ℚ` for temperature. -/
structure JsGenerationConfig where
  maxTokens : Option Int
  temperature : Option ℚ
deriving Repr, DecidableEq

/-- The generationConfig object passed to `model.startChat`. -/
structure EffectiveGenerationConfig where
  maxOutputTokens : Int
  temperature : ℚ
  topP : ℚ
  topK : Int
deriving Repr, DecidableEq

/-- JavaScript `x || d` on a possibly-undefined integer: `undefined` and
the falsy number 0 give the default. -/
def jsOrInt (v : Option Int) (d : Int) : Int :=
  match v with
  | none => d
  | some x => if x = 0 then d else x

/-- JavaScript `x || d` on a possibly-undefined rational. -/
def jsOrRat (v : Option ℚ) (d : ℚ) : ℚ :=
  match v with
  | none => d
  | some x => if x = 0 then d else x

/-- The generationConfig assembled by `generateGeminiResponse`, part_000
lines 1310-1315: `maxOutputTokens: config.maxTokens || 2048`,
`temperature: config.temperature || 0.7`, `topP: 0.95`, `topK: 40`. -/
def startChatGenerationConfig (config : JsGenerationConfig) :
    EffectiveGenerationConfig :=
  { maxOutputTokens := jsOrInt config.maxTokens 2048
  , temperature := jsOrRat config.temperature (7/10)
  , topP := 19/20
  , topK := 40 }

-- ===========================================================================
-- HTTP CHAT HANDLERS (src/server.js lines 59-88; part_000 lines 1351-1401)
-- ===========================================================================

/-- The observable outcome of one POST /api/chat request: HTTP status, the
text or error-message payload, and whether the model API was called. -/
structure HandlerResponse where
  status : Nat
  body : List Char
  modelCalled : Bool
deriving Repr, DecidableEq

/-- The POST /api/chat handler of src/server.js lines 59-88: a missing or
empty chatHistory is rejected with 400 and the message "contents are
required" before any model call; otherwise the model is called and the
request answers 200 with `response.text` (or a canned line when that is
falsy), or 500 when the call throws. -/
def serverJsChatHandler (chatHistory : Option (List HistMessage))
    (remote : Except (List Char) (Option (List Char))) : HandlerResponse :=
  match chatHistory with
  | none =>
    { status := 400, body := "contents are required".toList, modelCalled := false }
  | some hist =>
    if hist.length = 0 then
      { status := 400, body := "contents are required".toList, modelCalled := false }
    else
      match remote with
      | .ok text =>
        { status := 200
        , body :=
            match text with
            | some t =>
              if t.isEmpty then "I was unable to generate a response.".toList else t
            | none => "I was unable to generate a response.".toList
        , modelCalled := true }
      | .error _ =>
        { status := 500
        , body := "Failed to communicate with the Gemini API.".toList
        , modelCalled := true }

/-- Session-history append performed by the part_000 /api/chat handler
(`session.chatHistory.push(...)`, an in-place mutation of the stored
object, modelled as a `mapSet`). The id is always present when called. -/
def pushHistory (store : List (String × Session)) (k : String)
    (msg : HistMessage) : List (String × Session) :=
  match mapGet store k with
  | some s => mapSet store k { s with chatHistory := s.chatHistory ++ [msg] }
  | none => store

/-- The POST /api/chat handler of part_000 lines 1351-1401. The handler
performs no validation: a request body without `message` throws a TypeError
at `message.substring(0, 50)` inside the try — before the session is
touched and before any model call — and the catch answers it with status
500. With a message present the session is fetched or created, the user
turn is appended, `generateGeminiResponse` is called, and on success the
model turn is appended and 200 returned with the text; a re-thrown
generation error reaches the catch and yields 500 with the error message. -/
def part000ChatHandler (store : List (String × Session)) (sessionId : String)
    (message : Option (List Char)) (remote : Except (List Char) (List Char))
    (now : Int) : List (String × Session) × HandlerResponse :=
  match message with
  | none =>
    (store,
      { status := 500
      , body := "Cannot read properties of undefined (reading \x27substring\x27)".toList
      , modelCalled := false })
  | some m =>
    let r1 := getOrCreateSession store sessionId now
    let store1 := pushHistory r1.1 sessionId { role := "user", parts := [⟨m⟩] }
    let gen := generateGeminiResponse remote
    match gen.result with
    | .ok text =>
      let store2 := pushHistory store1 sessionId { role := "model", parts := [⟨text⟩] }
      (store2, { status := 200, body := text, modelCalled := true })
    | .error e =>
      (store1, { status := 500, body := e, modelCalled := true })

theorem serverJsStartup_exit_iff (key : Option String) :
    serverJsStartup key = .exitBeforeServing ↔
      (key = none ∨ key = some "" ∨ key = some "YOUR_GEMINI_API_KEY_HERE") := by
  cases key with
  | none => simp [serverJsStartup, jsFalsyStr]
  | some s =>
    by_cases h1 : s = ""
    · subst h1
      simp [serverJsStartup, jsFalsyStr]
    · by_cases h2 : s = "YOUR_GEMINI_API_KEY_HERE"
      · subst h2
        simp [serverJsStartup, jsFalsyStr]
      · simp [serverJsStartup, jsFalsyStr, h1, h2]

/-- C4 counterexample: with no credential the part_000 backend neither
terminates before serving (it serves, merely warning about demo mode) nor
avoids the remote model API: the GoogleGenerativeAI client is initialized
with the placeholder "demo-key" and a chat generation still performs the
remote call. -/
theorem c4_counterexample :
    part000Startup none = .servesTraffic true ∧
    part000Startup none ≠ .exitBeforeServing ∧
    part000GenAiKey none = "demo-key" ∧
    (generateGeminiResponse (.error ("API key not valid".toList))).remoteCalled
      = true :=
  ⟨rfl, by decide, rfl, rfl⟩

/-- C4 (amended): the two deployments implement different credential
policies. src/server.js exits before serving exactly when the credential is
absent, empty or the placeholder; the part_000 backend never exits at
startup — it serves traffic (with a demo warning when the key is falsy),
initializes the model client with "demo-key" in that case, and every
generation still attempts the remote call. -/
theorem c4_amended (key : Option String) :
    (serverJsStartup key = .exitBeforeServing ↔
      (key = none ∨ key = some "" ∨ key = some "YOUR_GEMINI_API_KEY_HERE")) ∧
    part000Startup key ≠ .exitBeforeServing ∧
    (jsFalsyStr key = true → part000GenAiKey key = "demo-key") ∧
    (∀ remote, (generateGeminiResponse remote).remoteCalled = true) := by
  refine ⟨serverJsStartup_exit_iff key, by simp [part000Startup], ?_, fun _ => rfl⟩
  intro hf
  rw [part000GenAiKey, hf]
  rfl

/-- Witness for C4 (amended) at the concrete key values: an absent key is
fatal for src/server.js and yields the "demo-key" client credential in
part_000. -/
theorem c4_amended_witness :
    serverJsStartup none = .exitBeforeServing ∧
    part000GenAiKey none = "demo-key" :=
  ⟨(c4_amended none).1.mpr (Or.inl rfl), (c4_amended none).2.2.1 rfl⟩

/-- C5 counterexample: a POST /api/chat request to the part_000 backend
whose body lacks the `message` field is not rejected with a 4xx response:
the handler's own TypeError is caught and answered as a 500 (the model is
indeed not called, but the status is not in the 4xx range). -/
theorem c5_counterexample :
    (part000ChatHandler [] "default" none (.ok ("hi".toList)) 0).2.status = 500 ∧
    ¬(400 ≤ (part000ChatHandler [] "default" none (.ok ("hi".toList)) 0).2.status ∧
      (part000ChatHandler [] "default" none (.ok ("hi".toList)) 0).2.status < 500) ∧
    (part000ChatHandler [] "default" none (.ok ("hi".toList)) 0).2.modelCalled
      = false :=
  ⟨rfl, by decide, rfl⟩

/-- C5 (amended): src/server.js does validate — a missing or empty
chatHistory is rejected with 400 and the descriptive message "contents are
required" without calling the model, and a non-empty history reaches the
model. The part_000 /api/chat handler performs no validation: a request
without a message is answered 500 via its catch, without touching the store
and without calling the model, while any request carrying a message calls
the model. -/
theorem c5_amended :
    (∀ remote, serverJsChatHandler none remote =
      { status := 400, body := "contents are required".toList,
        modelCalled := false }) ∧
    (∀ remote, serverJsChatHandler (some []) remote =
      { status := 400, body := "contents are required".toList,
        modelCalled := false }) ∧
    (∀ hist remote, hist ≠ [] →
      (serverJsChatHandler (some hist) remote).modelCalled = true) ∧
    (∀ store sessionId remote now,
      (part000ChatHandler store sessionId none remote now).2 =
        { status := 500
        , body := "Cannot read properties of undefined (reading \x27substring\x27)".toList
        , modelCalled := false } ∧
      (part000ChatHandler store sessionId none remote now).1 = store) ∧
    (∀ store sessionId m remote now,
      (part000ChatHandler store sessionId (some m) remote now).2.modelCalled
        = true) := by
  refine ⟨fun remote => rfl, fun remote => rfl, ?_, fun _ _ _ _ => ⟨rfl, rfl⟩, ?_⟩
  · intro hist remote hne
    cases hist with
    | nil => exact absurd rfl hne
    | cons x xs =>
      cases remote with
      | ok text => simp [serverJsChatHandler]
      | error e => simp [serverJsChatHandler]
  · intro store sessionId m remote now
    cases remote with
    | ok t => rfl
    | error e =>
      rw [part000ChatHandler]
      simp only [generateGeminiResponse]
      by_cases hi : strIncludes e ("API key".toList)
      · simp only [hi, if_true]
      · simp only [hi, Bool.false_eq_true, if_false]

/-- Witness for C5 (amended): a one-message history does reach the model in
src/server.js. -/
theorem c5_amended_witness :
    (serverJsChatHandler (some [{ role := "user", parts := [⟨"hi".toList⟩] }])
      (.ok (some ("ok".toList)))).modelCalled = true :=
  c5_amended.2.2.1 [{ role := "user", parts := [⟨"hi".toList⟩] }]
    (.ok (some ("ok".toList))) (by simp)

/-- C6 counterexample: a supplied temperature of 0 (which lies in [0,1]) is
not used — `config.temperature || 0.7` treats 0 as falsy and yields 0.7;
likewise a supplied non-positive maxTokens of -5 is used as-is rather than
replaced by the 2048 default. -/
theorem c6_counterexample :
    (startChatGenerationConfig
      { maxTokens := none, temperature := some 0 }).temperature = 7/10 ∧
    (7/10 : ℚ) ≠ 0 ∧
    (startChatGenerationConfig
      { maxTokens := some (-5), temperature := none }).maxOutputTokens = -5 ∧
    ((-5 : Int)) ≠ 2048 := by
  refine ⟨?_, by norm_num, ?_, by decide⟩
  · simp [startChatGenerationConfig, jsOrRat]
  · simp [startChatGenerationConfig, jsOrInt]

/-- C6 (amended): the defaults follow JavaScript truthiness, not presence:
an absent or zero maxTokens yields 2048 and any nonzero supplied maxTokens
(positive or not) is used; an absent or zero temperature yields 0.7 and any
nonzero supplied temperature is used — in particular a supplied temperature
of exactly 0 is replaced by 0.7. -/
theorem c6_amended (mt : Option Int) (t : Option ℚ) :
    (∀ v : Int, v ≠ 0 →
      (startChatGenerationConfig
        { maxTokens := some v, temperature := t }).maxOutputTokens = v) ∧
    (startChatGenerationConfig
      { maxTokens := none, temperature := t }).maxOutputTokens = 2048 ∧
    (startChatGenerationConfig
      { maxTokens := some 0, temperature := t }).maxOutputTokens = 2048 ∧
    (∀ r : ℚ, r ≠ 0 →
      (startChatGenerationConfig
        { maxTokens := mt, temperature := some r }).temperature = r) ∧
    (startChatGenerationConfig
      { maxTokens := mt, temperature := none }).temperature = 7/10 ∧
    (startChatGenerationConfig
      { maxTokens := mt, temperature := some 0 }).temperature = 7/10 := by
  refine ⟨?_, rfl, ?_, ?_, rfl, ?_⟩
  · intro v hv
    simp [startChatGenerationConfig, jsOrInt, hv]
  · simp [startChatGenerationConfig, jsOrInt]
  · intro r hr
    simp [startChatGenerationConfig, jsOrRat, hr]
  · simp [startChatGenerationConfig, jsOrRat]

/-- Witness for C6 (amended): a supplied maxTokens of 1024 and temperature
of 1/2 are both used. -/
theorem c6_amended_witness :
    (startChatGenerationConfig
      { maxTokens := some 1024, temperature := none }).maxOutputTokens = 1024 ∧
    (startChatGenerationConfig
      { maxTokens := none, temperature := some (1/2) }).temperature = 1/2 :=
  ⟨(c6_amended none none).1 1024 (by decide),
   (c6_amended none none).2.2.2.1 (1/2) (by norm_num)⟩

/-- C7 counterexample: a generation failure whose message does not mention
"API key" (here a connection reset) is not recovered locally:
`generateGeminiResponse` re-throws it and the part_000 /api/chat request
fails with a 500 response instead of a fallback string. -/
theorem c7_counterexample :
    (generateGeminiResponse (.error ("ECONNRESET".toList))).result =
      .error ("ECONNRESET".toList) ∧
    (part000ChatHandler [] "default" (some ("hi".toList))
      (.error ("ECONNRESET".toList)) 0).2.status = 500 :=
  ⟨rfl, rfl⟩

/-- C7 (amended): only generation failures whose error message contains
"API key" are recovered locally — converted into the canned fallback text
and answered 200 by the part_000 /api/chat handler; every other generation
failure propagates out of `generateGeminiResponse` and the request answers
500 carrying the error message. -/
theorem c7_amended (e : List Char) (store : List (String × Session))
    (sessionId : String) (m : List Char) (now : Int) :
    (strIncludes e ("API key".toList) = true →
      (generateGeminiResponse (.error e)).result = .ok apiKeyFallbackMessage ∧
      (part000ChatHandler store sessionId (some m) (.error e) now).2.status = 200 ∧
      (part000ChatHandler store sessionId (some m) (.error e) now).2.body =
        apiKeyFallbackMessage) ∧
    (strIncludes e ("API key".toList) = false →
      (generateGeminiResponse (.error e)).result = .error e ∧
      (part000ChatHandler store sessionId (some m) (.error e) now).2.status = 500 ∧
      (part000ChatHandler store sessionId (some m) (.error e) now).2.body = e) := by
  constructor
  · intro hi
    have hres : (generateGeminiResponse (.error e)).result =
        .ok apiKeyFallbackMessage := by
      simp only [generateGeminiResponse, hi, if_true]
    refine ⟨hres, ?_, ?_⟩ <;>
      · rw [part000ChatHandler]
        simp only [hres]
  · intro hi
    have hres : (generateGeminiResponse (.error e)).result = .error e := by
      simp only [generateGeminiResponse, hi, Bool.false_eq_true, if_false]
    refine ⟨hres, ?_, ?_⟩ <;>
      · rw [part000ChatHandler]
        simp only [hres]

/-- Witness for C7 (amended) at both branches: an "API key" failure yields
a 200 with the fallback text, a "timeout" failure yields a 500. -/
theorem c7_amended_witness :
    (part000ChatHandler [] "default" (some ("hi".toList))
      (.error ("API key not valid".toList)) 0).2.status = 200 ∧
    (part000ChatHandler [] "default" (some ("hi".toList))
      (.error ("timeout".toList)) 0).2.status = 500 :=
  ⟨((c7_amended ("API key not valid".toList) [] "default" ("hi".toList) 0).1
      (by decide)).2.1,
   ((c7_amended ("timeout".toList) [] "default" ("hi".toList) 0).2
      (by decide)).2.1⟩

end Sayonara
